import Mathlib

/-!
# ShoreSquad: the client-state module of `src/js/app.js`

A shallow embedding of the in-memory application state, the join action, the
search/date filter, the list renderer and the mocked weather panel, followed by
the properties the specification states about them.

Modelling conventions.

* JavaScript numbers that the program only ever uses as counters and ids
  (`id`, `members`, `impact`, `cleanupsJoined`, `totalImpact`, `crewMembers`)
  are unbounded integers (`Int`); the rounding of IEEE doubles above `2^53`
  is outside the model.
* Strings are sequences of Unicode scalar values.  For such strings the
  code-unit search of `String.prototype.includes` coincides with the search on
  scalar values, because UTF-16 is self-synchronising.
* The array `appState.cleanups` holds pairwise distinct objects and is never
  reassigned, so a reference to one of its elements is its position in the
  array; mutation of an element in place is an update of the list at that
  position.
* Everything the program obtains from the browser and that is not fixed by the
  program text (the clock, the time zone, `toLowerCase`, the parsing of date
  strings that are not of the form `YYYY-MM-DD`, the locale formatting) is a
  field of `Host`.
* The elements the code looks up with `getElementById` are assumed present
  (the page markup is not part of the source); `Document` holds the parts of
  them the code reads or writes.  Timers (`setTimeout`) are not modelled.
-/

namespace ShoreSquad

/-! ## Data model -/

/-- One record of `mockCleanups` (app.js 11-48). -/
structure Cleanup where
  id : Int
  title : String
  location : String
  date : String
  time : String
  description : String
  crew : String
  members : Int
  impact : Int
  icon : String
deriving DecidableEq, Repr

/-- The object `appState.currentUser` (app.js 55-62). -/
structure User where
  id : String
  name : String
  crew : String
  cleanupsJoined : Int
  totalImpact : Int
  crewMembers : Int
deriving DecidableEq, Repr

/-- A coordinate pair, in units of one ten-thousandth of a degree. -/
structure LatLng where
  lat : Int
  lng : Int
deriving DecidableEq, Repr

/-- The object `appState` (app.js 54-68).  `map` is the handle of the map
widget (`none` is `null`), `selectedCleanup` is a reference to an element of
`cleanups`, kept as its position (`none` is `null`), `favorites` is the set of
favourite ids. -/
structure AppState where
  currentUser : User
  map : Option Nat
  currentLocation : LatLng
  selectedCleanup : Option Nat
  cleanups : List Cleanup
  favorites : List Int
deriving DecidableEq, Repr

/-- The array `mockCleanups` (app.js 11-48). -/
def mockCleanups : List Cleanup :=
  [ { id := 1
      title := "Venice Beach Spring Cleanup"
      location := "Venice Beach, CA"
      date := "2025-03-15"
      time := "09:00"
      description := "Join us for a morning of beach cleanup and community connection!"
      crew := "Eco Warriors"
      members := 12
      impact := 45
      icon := "🌊" },
    { id := 2
      title := "Malibu Coast Conservation"
      location := "Malibu, CA"
      date := "2025-03-22"
      time := "10:00"
      description := "Help protect our beautiful coastline. Bring friends!"
      crew := "Beach Guardians"
      members := 8
      impact := 32
      icon := "🏖️" },
    { id := 3
      title := "Santa Monica Pier Cleanup"
      location := "Santa Monica, CA"
      date := "2025-03-29"
      time := "08:00"
      description := "Join the largest beach cleanup event of the month."
      crew := "Ocean Lovers"
      members := 25
      impact := 78
      icon := "♻️" } ]

/-- The initial value of `appState` (app.js 54-68). -/
def appState : AppState :=
  { currentUser :=
      { id := "user123"
        name := "Alex"
        crew := "Eco Warriors"
        cleanupsJoined := 3
        totalImpact := 125
        crewMembers := 8 }
    map := none
    currentLocation := { lat := 340195, lng := -1184912 }
    selectedCleanup := none
    cleanups := mockCleanups
    favorites := [] }

/-! ## The browser: host functions and the document -/

/-- What the browser supplies and the program text does not fix. -/
structure Host where
  /-- The builtin `String.prototype.toLowerCase`. -/
  toLowerCase : String → String
  /-- The time value, in milliseconds since the epoch, that `new Date()` reads. -/
  now : Int
  /-- The offset of local time from UTC, in milliseconds, at a given time value. -/
  localTZA : Int → Int
  /-- The time value of `new Date(s)` for a string `s` that is not a valid
  `YYYY-MM-DD` date; `none` is `NaN`. -/
  parseFallback : String → Option Int
  /-- The builtin `toLocaleDateString` with the options of `formatDate`,
  as a function of the time value. -/
  toLocaleDateString : Option Int → String

/-- An `li` element created by `renderCleanups` (app.js 227-263). -/
structure CardElement where
  className : String
  id : String
  role : String
  innerHTML : String
  borderLeft : String
deriving DecidableEq, Repr

/-- The element `#cleanupsList`: the markup last assigned to `innerHTML` and
the children appended since. -/
structure ListContainer where
  innerHTML : String
  appended : List CardElement
deriving DecidableEq, Repr

/-- A banner created by `showNotification` (app.js 350-363). -/
structure Notification where
  className : String
  textContent : String
  cssText : String
deriving DecidableEq, Repr

/-- The parts of the page the code reads or writes. -/
structure Document where
  searchInput : String
  dateFilter : String
  cleanupCount : String
  impactKg : String
  crewCount : String
  cleanupsList : ListContainer
  weatherContainer : String
  body : List Notification
deriving DecidableEq, Repr

/-- The whole mutable world of the script: the global `appState` and the page. -/
structure World where
  appState : AppState
  document : Document
deriving DecidableEq, Repr

/-! ## Dates (the builtin `Date`, as far as the program uses it) -/

/-- Milliseconds per day. -/
def msPerDay : Int := 86400000

/-- The largest magnitude of a valid time value (`TimeClip`). -/
def maxTime : Int := 8640000000000000

/-- The abstract operation `TimeClip`: a time value out of range is `NaN`. -/
def timeClip (t : Int) : Option Int :=
  if t.natAbs ≤ maxTime.natAbs then some t else none

/-- Day number since the epoch of the civil date `y`-`m`-`d` (proleptic
Gregorian calendar, `m` from 1 to 12). -/
def daysFromCivil (y m d : Int) : Int :=
  let y1 := if m ≤ 2 then y - 1 else y
  let era := y1 / 400
  let yoe := y1 - era * 400
  let mp := if m > 2 then m - 3 else m + 9
  let doy := (153 * mp + 2) / 5 + d - 1
  let doe := yoe * 365 + yoe / 4 - yoe / 100 + doy
  era * 146097 + doe - 719468

/-- Civil date `(year, month, day)` of a day number since the epoch, `month`
from 1 to 12. -/
def civilFromDays (z0 : Int) : Int × Int × Int :=
  let z := z0 + 719468
  let era := z / 146097
  let doe := z - era * 146097
  let yoe := (doe - doe / 1460 + doe / 36524 - doe / 146096) / 365
  let doy := doe - (365 * yoe + yoe / 4 - yoe / 100)
  let mp := (5 * doy + 2) / 153
  let d := doy - (153 * mp + 2) / 5 + 1
  let m := if mp < 10 then mp + 3 else mp - 9
  let y := yoe + era * 400
  (if m ≤ 2 then y + 1 else y, m, d)

/-- Whether `y` is a leap year. -/
def isLeapYear (y : Int) : Bool :=
  (y % 4 == 0 && y % 100 != 0) || y % 400 == 0

/-- Number of days of month `m` (1 to 12) of year `y`. -/
def daysInMonth (y m : Int) : Int :=
  if m == 2 then (if isLeapYear y then 29 else 28)
  else if m == 4 || m == 6 || m == 9 || m == 11 then 30
  else 31

/-- Value of a decimal digit, `none` for any other character. -/
def digitValue (c : Char) : Option Int :=
  if c.isDigit then some ((c.toNat : Int) - 48) else none

/-- Value of a run of decimal digits, most significant first. -/
def digitsValue : List Char → Option Int
  | [] => some 0
  | cs =>
    cs.foldl (fun acc c =>
      match acc, digitValue c with
      | some a, some v => some (a * 10 + v)
      | _, _ => none) (some 0)

/-- The date-only ISO form `YYYY-MM-DD` with an existing day: the time value of
midnight UTC of that day.  `none` when the string is not of that form. -/
def parseIsoDate (s : String) : Option Int :=
  match s.data with
  | [y1, y2, y3, y4, '-', m1, m2, '-', d1, d2] =>
    match digitsValue [y1, y2, y3, y4], digitsValue [m1, m2], digitsValue [d1, d2] with
    | some y, some m, some d =>
      if 1 ≤ m ∧ m ≤ 12 ∧ 1 ≤ d ∧ d ≤ daysInMonth y m then
        some (daysFromCivil y m d * msPerDay)
      else none
    | _, _, _ => none
  | _ => none

/-- The time value of `new Date(s)`; `none` is `NaN` (an invalid date). -/
def newDate (host : Host) (s : String) : Option Int :=
  match parseIsoDate s with
  | some t => some t
  | none => host.parseFallback s

/-- The time value shifted to local time. -/
def localTime (host : Host) (t : Int) : Int := t + host.localTZA t

/-- The builtin `getFullYear`; `none` is `NaN`. -/
def getFullYear (host : Host) (d : Option Int) : Option Int :=
  d.map fun t => (civilFromDays (localTime host t / msPerDay)).1

/-- The builtin `getMonth` (0 is January); `none` is `NaN`. -/
def getMonth (host : Host) (d : Option Int) : Option Int :=
  d.map fun t => (civilFromDays (localTime host t / msPerDay)).2.1 - 1

/-- The builtin `getDate` (day of the month); `none` is `NaN`. -/
def getDate (host : Host) (d : Option Int) : Option Int :=
  d.map fun t => (civilFromDays (localTime host t / msPerDay)).2.2

/-- Strict equality `===` of two numbers: `NaN` equals nothing. -/
def numEq : Option Int → Option Int → Bool
  | some a, some b => a == b
  | _, _ => false

/-- The comparison `<=` of two numbers: false when either is `NaN`. -/
def numLe : Option Int → Option Int → Bool
  | some a, some b => decide (a ≤ b)
  | _, _ => false

/-- Weekday names of `toDateString`. -/
def weekDayNames : List String := ["Sun", "Mon", "Tue", "Wed", "Thu", "Fri", "Sat"]

/-- Month names of `toDateString`. -/
def monthNames : List String :=
  ["Jan", "Feb", "Mar", "Apr", "May", "Jun", "Jul", "Aug", "Sep", "Oct", "Nov", "Dec"]

/-- A natural number in decimal, padded with zeros on the left to `width`. -/
def padNat (width n : Nat) : String :=
  let ds := toString n
  String.mk (List.replicate (width - ds.length) '0') ++ ds

/-- The text `toDateString` produces for a local day number, for example
`Sat Mar 15 2025`. -/
def dateStringOfDay (day : Int) : String :=
  let ymd := civilFromDays day
  let wd := ((day + 4) % 7).toNat
  weekDayNames.getD wd "" ++ " " ++ monthNames.getD (ymd.2.1 - 1).toNat "" ++ " " ++
    padNat 2 ymd.2.2.toNat ++ " " ++ (if ymd.1 < 0 then "-" else "") ++ padNat 4 ymd.1.natAbs

/-- The builtin `toDateString`. -/
def toDateString (host : Host) (d : Option Int) : String :=
  match d with
  | none => "Invalid Date"
  | some t => dateStringOfDay (localTime host t / msPerDay)

/-- The function `formatDate` (app.js 114-117). -/
def formatDate (host : Host) (dateStr : String) : String :=
  host.toLocaleDateString (newDate host dateStr)

/-- A host for evaluating examples: ASCII lower-casing, local time UTC, the
clock at the given time value, other date strings invalid, and the text of
`toDateString` standing in for the locale format. -/
def utcHost (now : Int) : Host :=
  { toLowerCase := fun s => String.mk (s.data.map Char.toLower)
    now := now
    localTZA := fun _ => 0
    parseFallback := fun _ => none
    toLocaleDateString := fun d =>
      match d with
      | none => "Invalid Date"
      | some t => dateStringOfDay (t / msPerDay) }

/-! ## Strings and lists -/

/-- Whether `pattern` is an initial segment of `text`. -/
def startsWith : List Char → List Char → Bool
  | _, [] => true
  | [], _ :: _ => false
  | t :: ts, p :: ps => t == p && startsWith ts ps

/-- Whether `pattern` occurs in `text` at some position. -/
def includesChars : List Char → List Char → Bool
  | [], pattern => startsWith [] pattern
  | t :: ts, pattern => startsWith (t :: ts) pattern || includesChars ts pattern

/-- The builtin `String.prototype.includes` (search from position 0). -/
def includes (s searchString : String) : Bool :=
  includesChars s.data searchString.data

/-- The expression `s.split(' ')[0]`: the text before the first space. -/
def splitSpaceFirst (s : String) : String :=
  String.mk (s.data.takeWhile fun c => c != ' ')

/-- Mutation in place of the first element satisfying `p`, which is the
element `Array.prototype.find` and `getElementById` return. -/
def modifyFirst {α : Type} (p : α → Bool) (f : α → α) : List α → List α
  | [] => []
  | x :: xs => if p x then f x :: xs else x :: modifyFirst p f xs

/-! ## Rendering -/

/-- The markup of a card, the template literal of app.js 232-263. -/
def cardHTML (host : Host) (cleanup : Cleanup) : String :=
  "\n" ++
  "            <div class=\"cleanup-header\">\n" ++
  "                <h3 class=\"cleanup-title\">" ++ cleanup.icon ++ " " ++ cleanup.title ++ "</h3>\n" ++
  "                <span class=\"cleanup-badge\">" ++ toString cleanup.members ++ " joining</span>\n" ++
  "            </div>\n" ++
  "            \n" ++
  "            <div class=\"cleanup-details\">\n" ++
  "                <div class=\"cleanup-detail-item\">\n" ++
  "                    <span>📍</span> <strong>" ++ cleanup.location ++ "</strong>\n" ++
  "                </div>\n" ++
  "                <div class=\"cleanup-detail-item\">\n" ++
  "                    <span>📅</span> <strong>" ++ formatDate host cleanup.date ++ "</strong>\n" ++
  "                </div>\n" ++
  "                <div class=\"cleanup-detail-item\">\n" ++
  "                    <span>⏰</span> <strong>" ++ cleanup.time ++ "</strong>\n" ++
  "                </div>\n" ++
  "                <div class=\"cleanup-detail-item\">\n" ++
  "                    <span>👥</span> <strong>" ++ cleanup.crew ++ "</strong>\n" ++
  "                </div>\n" ++
  "            </div>\n" ++
  "            \n" ++
  "            <p class=\"cleanup-description\">" ++ cleanup.description ++ "</p>\n" ++
  "            \n" ++
  "            <div class=\"cleanup-actions\">\n" ++
  "                <button class=\"btn btn-primary\" onclick=\"joinCleanup(" ++ toString cleanup.id ++
    ")\" aria-label=\"Join this cleanup\">\n" ++
  "                    ✓ Join Cleanup\n" ++
  "                </button>\n" ++
  "                <button class=\"btn btn-secondary\" onclick=\"shareCleanup(" ++ toString cleanup.id ++
    ")\" aria-label=\"Share this cleanup\">\n" ++
  "                    🔗 Share\n" ++
  "                </button>\n" ++
  "            </div>\n" ++
  "        "

/-- The `li` element built for one event (app.js 227-263). -/
def cardElement (host : Host) (cleanup : Cleanup) : CardElement :=
  { className := "cleanup-card"
    id := "cleanup-" ++ toString cleanup.id
    role := "listitem"
    innerHTML := cardHTML host cleanup
    borderLeft := "" }

/-- The markup shown for an empty list (app.js 222). -/
def placeholderHTML : String := "<p class=\"placeholder\">No cleanups found.</p>"

/-- The function `renderCleanups` (app.js 217-267).  The default argument
`appState.cleanups` is passed by the caller. -/
def renderCleanups (host : Host) (doc : Document) (cleanupsToRender : List Cleanup) : Document :=
  let cleared : ListContainer := { innerHTML := "", appended := [] }
  if cleanupsToRender.length == 0 then
    { doc with cleanupsList := { innerHTML := placeholderHTML, appended := [] } }
  else
    let filled := cleanupsToRender.foldl
      (fun (container : ListContainer) cleanup =>
        { container with appended := container.appended ++ [cardElement host cleanup] })
      cleared
    { doc with cleanupsList := filled }

/-- The function `updateImpactDashboard` (app.js 339-343). -/
def updateImpactDashboard (st : AppState) (doc : Document) : Document :=
  { doc with
    cleanupCount := toString st.currentUser.cleanupsJoined
    impactKg := toString st.currentUser.totalImpact
    crewCount := toString st.currentUser.crewMembers }

/-- The function `showNotification` (app.js 349-367); the removal of the
banner after three seconds is not modelled. -/
def showNotification (doc : Document) (message : String) (type : String) : Document :=
  let notification : Notification :=
    { className := type ++ " notification"
      textContent := message
      cssText :=
        "\n" ++
        "        position: fixed;\n" ++
        "        bottom: 20px;\n" ++
        "        right: 20px;\n" ++
        "        padding: 12px 20px;\n" ++
        "        background: " ++ (if type == "success" then "#2ECC71" else "#0077BE") ++ ";\n" ++
        "        color: white;\n" ++
        "        border-radius: 8px;\n" ++
        "        z-index: 1000;\n" ++
        "        animation: slideIn 0.3s ease;\n" ++
        "    " }
  { doc with body := doc.body ++ [notification] }

/-- The function `highlightCleanupCard` (app.js 373-381). -/
def highlightCleanupCard (doc : Document) (cleanupId : Int) : Document :=
  let reset := doc.cleanupsList.appended.map fun card =>
    { card with borderLeft := "4px solid #ECF0F1" }
  let selected := modifyFirst (fun card : CardElement => card.id == "cleanup-" ++ toString cleanupId)
    (fun card => { card with borderLeft := "4px solid #FF6B6B" }) reset
  { doc with cleanupsList := { doc.cleanupsList with appended := selected } }

/-! ## Weather panel (mock) -/

/-- One entry of the table `weatherData` (app.js 191-195). -/
structure Weather where
  temp : Int
  condition : String
  humidity : Int
  windSpeed : Int
deriving DecidableEq, Repr

/-- The lookup `weatherData[id]` in the table of app.js 191-195; `none` is
`undefined`. -/
def weatherData (id : Int) : Option Weather :=
  if id == 1 then some { temp := 22, condition := "☀️ Sunny", humidity := 65, windSpeed := 8 }
  else if id == 2 then
    some { temp := 20, condition := "🌤️ Partly Cloudy", humidity := 70, windSpeed := 12 }
  else if id == 3 then some { temp := 21, condition := "☀️ Sunny", humidity := 68, windSpeed := 7 }
  else none

/-- The value of `weather` in `updateWeather` (app.js 197). -/
def weatherOf (cleanup : Cleanup) : Weather :=
  match weatherData cleanup.id with
  | some weather => weather
  | none => { temp := 20, condition := "☀️ Sunny", humidity := 65, windSpeed := 8 }

/-- The markup of the weather card, the template literal of app.js 199-207. -/
def weatherHTML (location : String) (weather : Weather) : String :=
  "\n" ++
  "        <div class=\"weather-card\">\n" ++
  "            <h3>" ++ location ++ "</h3>\n" ++
  "            <div class=\"weather-emoji\">" ++ splitSpaceFirst weather.condition ++ "</div>\n" ++
  "            <div class=\"weather-temp\">" ++ toString weather.temp ++ "°C</div>\n" ++
  "            <p>" ++ weather.condition ++ "</p>\n" ++
  "            <small>💧 " ++ toString weather.humidity ++ "% | 🌬️ " ++ toString weather.windSpeed ++
    " km/h</small>\n" ++
  "        </div>\n" ++
  "    "

/-- The function `updateWeather` (app.js 187-211). -/
def updateWeather (doc : Document) (cleanup : Cleanup) : Document :=
  { doc with weatherContainer := weatherHTML cleanup.location (weatherOf cleanup) }

/-- The click handler of the marker of the event at position `i` of the list
(app.js 173-177). -/
def markerClick (w : World) (i : Nat) : World :=
  match w.appState.cleanups[i]? with
  | none => w
  | some cleanup =>
    { appState := { w.appState with selectedCleanup := some i }
      document := highlightCleanupCard (updateWeather w.document cleanup) cleanup.id }

/-! ## Cleanup actions -/

/-- The function `joinCleanup` (app.js 273-283). -/
def joinCleanup (host : Host) (w : World) (cleanupId : Int) : World :=
  match w.appState.cleanups.find? (fun c => c.id == cleanupId) with
  | none => w
  | some found =>
    let cleanup : Cleanup := { found with members := found.members + 1 }
    let cleanups := modifyFirst (fun c : Cleanup => c.id == cleanupId)
      (fun c => { c with members := c.members + 1 }) w.appState.cleanups
    let user := w.appState.currentUser
    let user1 : User := { user with cleanupsJoined := user.cleanupsJoined + 1 }
    let user2 : User := { user1 with totalImpact := user1.totalImpact + cleanup.impact }
    let st : AppState := { w.appState with currentUser := user2, cleanups := cleanups }
    let doc1 := updateImpactDashboard st w.document
    let doc2 := renderCleanups host doc1 st.cleanups
    let doc3 := showNotification doc2 ("✓ You joined \"" ++ cleanup.title ++ "\"!") "success"
    { appState := st, document := doc3 }

/-- A session of join actions, in order. -/
def joinAll (host : Host) (w : World) (ids : List Int) : World :=
  ids.foldl (joinCleanup host) w

/-! ## Search and filter -/

/-- The value of `matchesSearch` (app.js 312-314) for the lower-cased input. -/
def matchesSearch (host : Host) (searchInput : String) (cleanup : Cleanup) : Bool :=
  includes (host.toLowerCase cleanup.title) searchInput ||
  includes (host.toLowerCase cleanup.location) searchInput ||
  includes (host.toLowerCase cleanup.crew) searchInput

/-- The value of `matchesDate` (app.js 316-327). -/
def matchesDate (host : Host) (dateFilter : String) (cleanup : Cleanup) : Bool :=
  let today : Option Int := some host.now
  let cleanupDate := newDate host cleanup.date
  if dateFilter == "today" then
    toDateString host cleanupDate == toDateString host today
  else if dateFilter == "week" then
    let nextWeek := timeClip (host.now + 7 * 24 * 60 * 60 * 1000)
    numLe today cleanupDate && numLe cleanupDate nextWeek
  else if dateFilter == "month" then
    numEq (getMonth host cleanupDate) (getMonth host today)
  else
    true

/-- The array `filtered` of `filterCleanups` (app.js 308-330). -/
def filtered (host : Host) (w : World) : List Cleanup :=
  let searchInput := host.toLowerCase w.document.searchInput
  let dateFilter := w.document.dateFilter
  w.appState.cleanups.filter fun cleanup =>
    matchesSearch host searchInput cleanup && matchesDate host dateFilter cleanup

/-- The function `filterCleanups` (app.js 307-333). -/
def filterCleanups (host : Host) (w : World) : World :=
  { w with document := renderCleanups host w.document (filtered host w) }

/-- The page once the `DOMContentLoaded` handler has drawn the dashboard and
the list (app.js 416-419), with empty search and filter controls. -/
def initialWorld (host : Host) : World :=
  let blank : Document :=
    { searchInput := "", dateFilter := "", cleanupCount := "", impactKg := "", crewCount := ""
      cleanupsList := { innerHTML := "", appended := [] }, weatherContainer := "", body := [] }
  { appState := appState
    document := renderCleanups host (updateImpactDashboard appState blank) appState.cleanups }

/-- The page after the user has set the search box and the date selector. -/
def userInput (w : World) (searchInput dateFilter : String) : World :=
  { w with document := { w.document with searchInput := searchInput, dateFilter := dateFilter } }

/-! ## Lemmas on the list helpers -/

theorem modifyFirst_length {α : Type} (p : α → Bool) (f : α → α) (l : List α) :
    (modifyFirst p f l).length = l.length := by
  induction l with
  | nil => rfl
  | cons x xs ih =>
    unfold modifyFirst
    split <;> simp [ih]

theorem modifyFirst_of_find_none {α : Type} (p : α → Bool) (f : α → α) (l : List α)
    (h : l.find? p = none) : modifyFirst p f l = l := by
  induction l with
  | nil => rfl
  | cons x xs ih =>
    unfold modifyFirst
    by_cases hx : p x = true
    · simp [List.find?, hx] at h
    · have hx2 : p x = false := by simpa using hx
      simp only [List.find?, hx2] at h
      simp [hx2, ih h]

/-- The shape of a list around the element `find` returns. -/
theorem find_some_split {α : Type} (p : α → Bool) (l : List α) (a : α)
    (h : l.find? p = some a) :
    ∃ pre post, l = pre ++ a :: post ∧ (∀ x ∈ pre, p x = false) ∧ p a = true := by
  induction l with
  | nil => simp at h
  | cons x xs ih =>
    by_cases hx : p x = true
    · simp only [List.find?, hx] at h
      have hxa : x = a := by simpa using h
      subst hxa
      exact ⟨[], xs, rfl, by simp, hx⟩
    · have hx2 : p x = false := by simpa using hx
      simp only [List.find?, hx2] at h
      obtain ⟨pre, post, hl, hpre, ha⟩ := ih h
      refine ⟨x :: pre, post, by simp [hl], ?_, ha⟩
      intro y hy
      rcases List.mem_cons.mp hy with rfl | hy
      · exact hx2
      · exact hpre y hy

theorem modifyFirst_split {α : Type} (p : α → Bool) (f : α → α) (pre post : List α) (a : α)
    (hpre : ∀ x ∈ pre, p x = false) (ha : p a = true) :
    modifyFirst p f (pre ++ a :: post) = pre ++ f a :: post := by
  induction pre with
  | nil => simp [modifyFirst, ha]
  | cons x xs ih =>
    have hx : p x = false := hpre x (List.mem_cons_self _ _)
    have hxs : ∀ y ∈ xs, p y = false := fun y hy => hpre y (List.mem_cons_of_mem _ hy)
    simp [modifyFirst, hx, ih hxs]

/-- The application state after `joinCleanup`, in the two cases of the guard
`if (cleanup)`. -/
theorem joinCleanup_appState (host : Host) (w : World) (cleanupId : Int) :
    (w.appState.cleanups.find? (fun c => c.id == cleanupId) = none ∧
      joinCleanup host w cleanupId = w) ∨
    (∃ pre E post, w.appState.cleanups = pre ++ E :: post ∧ (∀ c ∈ pre, c.id ≠ cleanupId) ∧
      E.id = cleanupId ∧
      (joinCleanup host w cleanupId).appState =
        { w.appState with
          currentUser :=
            { w.appState.currentUser with
              cleanupsJoined := w.appState.currentUser.cleanupsJoined + 1
              totalImpact := w.appState.currentUser.totalImpact + E.impact }
          cleanups := pre ++ { E with members := E.members + 1 } :: post }) := by
  cases hfind : w.appState.cleanups.find? (fun c => c.id == cleanupId) with
  | none =>
    left
    refine ⟨rfl, ?_⟩
    unfold joinCleanup
    rw [hfind]
  | some found =>
    right
    obtain ⟨pre, post, hl, hpre, ha⟩ := find_some_split _ _ _ hfind
    refine ⟨pre, found, post, hl, ?_, by simpa using ha, ?_⟩
    · intro c hc
      have := hpre c hc
      simpa using this
    · unfold joinCleanup
      rw [hfind]
      simp only
      rw [hl, modifyFirst_split _ _ pre post found hpre ha]

/-- In a list whose ids are pairwise distinct, an id determines the position. -/
theorem index_unique_of_nodup_ids (l : List Cleanup) (hid : (l.map fun c => c.id).Nodup)
    (i j : Nat) (a b : Cleanup) (ha : l[i]? = some a) (hb : l[j]? = some b)
    (hab : a.id = b.id) : i = j := by
  induction l generalizing i j with
  | nil => simp at ha
  | cons x xs ih =>
    have hx : x.id ∉ xs.map (fun c => c.id) := (List.nodup_cons.mp hid).1
    have hxs : (xs.map fun c => c.id).Nodup := (List.nodup_cons.mp hid).2
    cases i with
    | zero =>
      cases j with
      | zero => rfl
      | succ j =>
        exfalso
        simp only [List.getElem?_cons_zero, Option.some.injEq] at ha
        simp only [List.getElem?_cons_succ] at hb
        apply hx
        rw [ha, hab]
        exact List.mem_map.mpr ⟨b, List.getElem?_mem hb, rfl⟩
    | succ i =>
      cases j with
      | zero =>
        exfalso
        simp only [List.getElem?_cons_zero, Option.some.injEq] at hb
        simp only [List.getElem?_cons_succ] at ha
        apply hx
        rw [hb, ← hab]
        exact List.mem_map.mpr ⟨a, List.getElem?_mem ha, rfl⟩
      | succ j =>
        simp only [List.getElem?_cons_succ] at ha hb
        rw [ih hxs i j ha hb]

theorem getElem?_split_self {α : Type} (pre post : List α) (a : α) :
    (pre ++ a :: post)[pre.length]? = some a := by
  rw [List.getElem?_append_right (Nat.le_refl _)]
  simp

/-! ## Properties of `joinCleanup` -/

/-- C1: for every state and every event `E` of the list, the ids being
pairwise distinct, `joinCleanup(E.id)` leaves `E.members` exactly 1 greater
(no other field of `E` changes), `cleanupsJoined` exactly 1 greater, and
`totalImpact` greater by exactly `E.impact`. -/
theorem joinCleanup_increments (host : Host) (w : World) (i : Nat) (E : Cleanup)
    (hE : w.appState.cleanups[i]? = some E)
    (hid : (w.appState.cleanups.map fun c => c.id).Nodup) :
    (joinCleanup host w E.id).appState.cleanups[i]? = some { E with members := E.members + 1 } ∧
    (joinCleanup host w E.id).appState.currentUser.cleanupsJoined =
      w.appState.currentUser.cleanupsJoined + 1 ∧
    (joinCleanup host w E.id).appState.currentUser.totalImpact =
      w.appState.currentUser.totalImpact + E.impact := by
  rcases joinCleanup_appState host w E.id with ⟨hnone, _⟩ | ⟨pre, E1, post, hl, _, hE1, hst⟩
  · exfalso
    have hmem : E ∈ w.appState.cleanups := List.getElem?_mem hE
    have := List.find?_eq_none.mp hnone E hmem
    simp at this
  · have hidx : i = pre.length := by
      apply index_unique_of_nodup_ids w.appState.cleanups hid i pre.length E E1 hE _ hE1.symm
      rw [hl]
      exact getElem?_split_self pre post E1
    have hEE : E = E1 := by
      have h1 : w.appState.cleanups[pre.length]? = some E1 := by
        rw [hl]
        exact getElem?_split_self pre post E1
      rw [← hidx, hE] at h1
      exact Option.some.inj h1
    subst hEE
    rw [hst, hidx]
    exact ⟨getElem?_split_self pre post _, rfl, rfl⟩

/-- Witness of C1: joining event 2 in the initial state. -/
theorem joinCleanup_increments_witness :
    (joinCleanup (utcHost 0) (initialWorld (utcHost 0)) 2).appState.cleanups[1]? =
      some { id := 2
             title := "Malibu Coast Conservation"
             location := "Malibu, CA"
             date := "2025-03-22"
             time := "10:00"
             description := "Help protect our beautiful coastline. Bring friends!"
             crew := "Beach Guardians"
             members := 8 + 1
             impact := 32
             icon := "🏖️" } ∧
    (joinCleanup (utcHost 0) (initialWorld (utcHost 0)) 2).appState.currentUser.cleanupsJoined =
      3 + 1 ∧
    (joinCleanup (utcHost 0) (initialWorld (utcHost 0)) 2).appState.currentUser.totalImpact =
      125 + 32 :=
  joinCleanup_increments (utcHost 0) (initialWorld (utcHost 0)) 1
    { id := 2
      title := "Malibu Coast Conservation"
      location := "Malibu, CA"
      date := "2025-03-22"
      time := "10:00"
      description := "Help protect our beautiful coastline. Bring friends!"
      crew := "Beach Guardians"
      members := 8
      impact := 32
      icon := "🏖️" } (by rfl) (by decide)

/-- C7, as stated, fails: in the initial state event 1 has impact 45 before
`joinCleanup(1)` and impact 45 after it, so its impact has not increased. -/
theorem joinCleanup_impact_not_increased :
    ((initialWorld (utcHost 0)).appState.cleanups[0]?.map fun c => (c.id, c.impact)) =
      some (1, 45) ∧
    ((joinCleanup (utcHost 0) (initialWorld (utcHost 0)) 1).appState.cleanups[0]?.map
      fun c => (c.id, c.impact)) = some (1, 45) ∧
    ¬ ((45 : Int) < 45) := by
  refine ⟨by rfl, by rfl, by decide⟩

/-- C7 amended: for every event `E` of the list, `joinCleanup(E.id)` leaves
the impact of `E` unchanged; the member count of `E` does not decrease, and it
is exactly 1 greater when no earlier event of the list has the id of `E`. -/
theorem joinCleanup_impact_unchanged (host : Host) (w : World) (i : Nat) (E : Cleanup)
    (hE : w.appState.cleanups[i]? = some E) :
    ∃ E1, (joinCleanup host w E.id).appState.cleanups[i]? = some E1 ∧
      E1.impact = E.impact ∧ E.members ≤ E1.members ∧
      ((∀ j c, j < i → w.appState.cleanups[j]? = some c → c.id ≠ E.id) →
        E1.members = E.members + 1) := by
  rcases joinCleanup_appState host w E.id with ⟨hnone, _⟩ | ⟨pre, E0, post, hl, hpre, hE0, hst⟩
  · exfalso
    have hmem : E ∈ w.appState.cleanups := List.getElem?_mem hE
    have := List.find?_eq_none.mp hnone E hmem
    simp at this
  · rw [hst]
    simp only
    rw [hl] at hE
    rcases Nat.lt_trichotomy i pre.length with hlt | heq | hgt
    · rw [List.getElem?_append_left hlt] at hE
      refine ⟨E, ?_, rfl, le_refl _, ?_⟩
      · rw [List.getElem?_append_left hlt]
        exact hE
      · intro _
        exact absurd rfl (hpre E (List.getElem?_mem hE))
    · subst heq
      rw [getElem?_split_self] at hE
      have hEE : E0 = E := Option.some.inj hE
      subst hEE
      refine ⟨{ E0 with members := E0.members + 1 }, getElem?_split_self _ _ _, rfl, ?_, ?_⟩
      · show E0.members ≤ E0.members + 1
        omega
      · intro _
        rfl
    · have hle : pre.length ≤ i := Nat.le_of_lt hgt
      rw [List.getElem?_append_right hle] at hE
      obtain ⟨k, hk⟩ : ∃ k, i - pre.length = k + 1 := ⟨i - pre.length - 1, by omega⟩
      rw [hk, List.getElem?_cons_succ] at hE
      refine ⟨E, ?_, rfl, le_refl _, ?_⟩
      · rw [List.getElem?_append_right hle, hk, List.getElem?_cons_succ]
        exact hE
      · intro hfirst
        exfalso
        apply hfirst pre.length E0 hgt _ hE0
        rw [hl]
        exact getElem?_split_self pre post E0

/-- Witness of the amended C7: joining event 1 in the initial state. -/
theorem joinCleanup_impact_unchanged_witness :
    ∃ E1, (joinCleanup (utcHost 0) (initialWorld (utcHost 0)) 1).appState.cleanups[0]? = some E1 ∧
      E1.impact = 45 ∧ (12 : Int) ≤ E1.members ∧
      ((∀ j c, j < 0 → (initialWorld (utcHost 0)).appState.cleanups[j]? = some c → c.id ≠ 1) →
        E1.members = 12 + 1) :=
  joinCleanup_impact_unchanged (utcHost 0) (initialWorld (utcHost 0)) 0
    { id := 1
      title := "Venice Beach Spring Cleanup"
      location := "Venice Beach, CA"
      date := "2025-03-15"
      time := "09:00"
      description := "Join us for a morning of beach cleanup and community connection!"
      crew := "Eco Warriors"
      members := 12
      impact := 45
      icon := "🌊" } (by rfl)

/-- C9: for every state and every id that is the id of no event of the list,
`joinCleanup(id)` returns the world as it was: no event and no field of the
user changes, and the dashboard, the list container and the notifications of
the page are untouched. -/
theorem joinCleanup_unknown_id (host : Host) (w : World) (cleanupId : Int)
    (hno : ∀ c ∈ w.appState.cleanups, c.id ≠ cleanupId) :
    joinCleanup host w cleanupId = w := by
  have hfind : w.appState.cleanups.find? (fun c => c.id == cleanupId) = none := by
    apply List.find?_eq_none.mpr
    intro c hc
    simpa using hno c hc
  unfold joinCleanup
  rw [hfind]

/-- Witness of C9: id 7 in the initial state. -/
theorem joinCleanup_unknown_id_witness :
    joinCleanup (utcHost 0) (initialWorld (utcHost 0)) 7 = initialWorld (utcHost 0) :=
  joinCleanup_unknown_id (utcHost 0) (initialWorld (utcHost 0)) 7 (by decide)

/-- C10: for every state and every id, `joinCleanup(id)` either changes
nothing in `appState`, or the list is `pre ++ E :: post` with `E` the first
event of that id and becomes `pre ++ E1 :: post` where `E1` agrees with `E` on
id, title, location, date, time, description, crew, impact and icon; in both
cases the length of the list, the user's id, name, crew and crewMembers, the
selected cleanup, the current location, the map handle and the favorites are
unchanged. -/
theorem joinCleanup_frame (host : Host) (w : World) (cleanupId : Int) :
    ((joinCleanup host w cleanupId).appState.cleanups = w.appState.cleanups ∨
      ∃ pre E E1 post,
        w.appState.cleanups = pre ++ E :: post ∧
        (joinCleanup host w cleanupId).appState.cleanups = pre ++ E1 :: post ∧
        (∀ c ∈ pre, c.id ≠ cleanupId) ∧ E.id = cleanupId ∧
        E1.id = E.id ∧ E1.title = E.title ∧ E1.location = E.location ∧ E1.date = E.date ∧
        E1.time = E.time ∧ E1.description = E.description ∧ E1.crew = E.crew ∧
        E1.impact = E.impact ∧ E1.icon = E.icon) ∧
    (joinCleanup host w cleanupId).appState.cleanups.length = w.appState.cleanups.length ∧
    ((joinCleanup host w cleanupId).appState.cleanups.map fun c => c.id) =
      (w.appState.cleanups.map fun c => c.id) ∧
    (joinCleanup host w cleanupId).appState.currentUser.id = w.appState.currentUser.id ∧
    (joinCleanup host w cleanupId).appState.currentUser.name = w.appState.currentUser.name ∧
    (joinCleanup host w cleanupId).appState.currentUser.crew = w.appState.currentUser.crew ∧
    (joinCleanup host w cleanupId).appState.currentUser.crewMembers =
      w.appState.currentUser.crewMembers ∧
    (joinCleanup host w cleanupId).appState.selectedCleanup = w.appState.selectedCleanup ∧
    (joinCleanup host w cleanupId).appState.currentLocation = w.appState.currentLocation ∧
    (joinCleanup host w cleanupId).appState.map = w.appState.map ∧
    (joinCleanup host w cleanupId).appState.favorites = w.appState.favorites := by
  rcases joinCleanup_appState host w cleanupId with ⟨_, hsame⟩ | ⟨pre, E, post, hl, hpre, hE, hst⟩
  · rw [hsame]
    exact ⟨Or.inl rfl, rfl, rfl, rfl, rfl, rfl, rfl, rfl, rfl, rfl, rfl⟩
  · rw [hst]
    refine ⟨Or.inr ⟨pre, E, { E with members := E.members + 1 }, post, hl, rfl, hpre, hE,
      rfl, rfl, rfl, rfl, rfl, rfl, rfl, rfl, rfl⟩, ?_, ?_, rfl, rfl, rfl, rfl, rfl, rfl, rfl, rfl⟩
    · simp [hl]
    · simp [hl]

/-! ## Invariants of a session -/

/-- One call of `joinCleanup` keeps the id and the impact of every event,
position by position, and lowers no member count. -/
theorem joinCleanup_events_rel (host : Host) (w : World) (cleanupId : Int) :
    List.Forall₂ (fun c c1 : Cleanup => c.id = c1.id ∧ c.impact = c1.impact ∧ c.members ≤ c1.members)
      w.appState.cleanups (joinCleanup host w cleanupId).appState.cleanups := by
  rcases joinCleanup_appState host w cleanupId with ⟨_, hsame⟩ | ⟨pre, E, post, hl, _, _, hst⟩
  · rw [hsame]
    exact List.forall₂_same.mpr fun c _ => ⟨rfl, rfl, le_refl _⟩
  · rw [hst]
    simp only
    rw [hl]
    apply List.rel_append
    · exact List.forall₂_same.mpr fun c _ => ⟨rfl, rfl, le_refl _⟩
    · refine List.Forall₂.cons ⟨rfl, rfl, ?_⟩ ?_
      · show E.members ≤ E.members + 1
        omega
      · exact List.forall₂_same.mpr fun c _ => ⟨rfl, rfl, le_refl _⟩

/-- One call of `joinCleanup` adds 0 or 1 to `cleanupsJoined` and adds 0 or the
impact of an event of the list to `totalImpact`. -/
theorem joinCleanup_user_rel (host : Host) (w : World) (cleanupId : Int) :
    w.appState.currentUser.cleanupsJoined ≤
      (joinCleanup host w cleanupId).appState.currentUser.cleanupsJoined ∧
    ((joinCleanup host w cleanupId).appState.currentUser.totalImpact =
        w.appState.currentUser.totalImpact ∨
      ∃ E ∈ w.appState.cleanups,
        (joinCleanup host w cleanupId).appState.currentUser.totalImpact =
          w.appState.currentUser.totalImpact + E.impact) := by
  rcases joinCleanup_appState host w cleanupId with ⟨_, hsame⟩ | ⟨pre, E, post, hl, _, _, hst⟩
  · rw [hsame]
    exact ⟨le_refl _, Or.inl rfl⟩
  · rw [hst]
    refine ⟨?_, Or.inr ⟨E, ?_, rfl⟩⟩
    · show w.appState.currentUser.cleanupsJoined ≤ w.appState.currentUser.cleanupsJoined + 1
      omega
    · rw [hl]
      simp

theorem forall₂_ids_impacts (l l1 : List Cleanup)
    (h : List.Forall₂ (fun c c1 : Cleanup => c.id = c1.id ∧ c.impact = c1.impact ∧
      c.members ≤ c1.members) l l1) :
    (l1.map fun c => (c.id, c.impact)) = (l.map fun c => (c.id, c.impact)) := by
  induction h with
  | nil => rfl
  | cons hab _ ih =>
    simp only [List.map_cons, ih, hab.1, hab.2.1]

/-- The ids and impacts of the events are those of the start of the session
after any sequence of join actions. -/
theorem joinAll_ids_impacts (host : Host) (ids : List Int) (w : World) :
    ((joinAll host w ids).appState.cleanups.map fun c => (c.id, c.impact)) =
      (w.appState.cleanups.map fun c => (c.id, c.impact)) := by
  induction ids generalizing w with
  | nil => rfl
  | cons k ks ih =>
    show ((joinAll host (joinCleanup host w k) ks).appState.cleanups.map fun c => (c.id, c.impact)) = _
    rw [ih (joinCleanup host w k)]
    exact forall₂_ids_impacts _ _ (joinCleanup_events_rel host w k)

/-- C6: from the initial `appState`, with any page, after any finite sequence
of `joinCleanup` calls with arbitrary ids and one more call: the ids before and
after the call are, position by position, the initial ids and are pairwise
distinct; every event's members and impact after the call are at least their
values before it; and so are the user's `cleanupsJoined` and `totalImpact`. -/
theorem session_invariants (host : Host) (doc : Document) (ids : List Int) (cleanupId : Int) :
    ((joinAll host { appState := appState, document := doc } ids).appState.cleanups.map
      fun c => c.id) = (mockCleanups.map fun c => c.id) ∧
    ((joinCleanup host (joinAll host { appState := appState, document := doc } ids)
      cleanupId).appState.cleanups.map fun c => c.id) = (mockCleanups.map fun c => c.id) ∧
    ((joinCleanup host (joinAll host { appState := appState, document := doc } ids)
      cleanupId).appState.cleanups.map fun c => c.id).Nodup ∧
    List.Forall₂ (fun c c1 : Cleanup => c.members ≤ c1.members ∧ c.impact ≤ c1.impact)
      (joinAll host { appState := appState, document := doc } ids).appState.cleanups
      (joinCleanup host (joinAll host { appState := appState, document := doc } ids)
        cleanupId).appState.cleanups ∧
    (joinAll host { appState := appState, document := doc } ids).appState.currentUser.cleanupsJoined ≤
      (joinCleanup host (joinAll host { appState := appState, document := doc } ids)
        cleanupId).appState.currentUser.cleanupsJoined ∧
    (joinAll host { appState := appState, document := doc } ids).appState.currentUser.totalImpact ≤
      (joinCleanup host (joinAll host { appState := appState, document := doc } ids)
        cleanupId).appState.currentUser.totalImpact := by
  generalize hw : joinAll host { appState := appState, document := doc } ids = w
  have hinv : (w.appState.cleanups.map fun c => (c.id, c.impact)) =
      [(1, 45), (2, 32), (3, 78)] := by
    rw [← hw, joinAll_ids_impacts]
    rfl
  have hrel := joinCleanup_events_rel host w cleanupId
  have hinv1 := (forall₂_ids_impacts _ _ hrel).trans hinv
  have hids : ∀ l : List Cleanup, (l.map fun c => (c.id, c.impact)) = [(1, 45), (2, 32), (3, 78)] →
      (l.map fun c => c.id) = [1, 2, 3] := by
    intro l hl
    have := congrArg (List.map Prod.fst) hl
    simpa [List.map_map, Function.comp_def] using this
  have hpos : ∀ E ∈ w.appState.cleanups, 0 ≤ E.impact := by
    intro E hE
    have hmem : (E.id, E.impact) ∈ (w.appState.cleanups.map fun c => (c.id, c.impact)) :=
      List.mem_map.mpr ⟨E, hE, rfl⟩
    rw [hinv] at hmem
    simp only [List.mem_cons, Prod.mk.injEq, List.mem_singleton, List.not_mem_nil, or_false] at hmem
    rcases hmem with ⟨_, h⟩ | ⟨_, h⟩ | ⟨_, h⟩ <;> omega
  refine ⟨hids _ hinv, hids _ hinv1, ?_, ?_, (joinCleanup_user_rel host w cleanupId).1, ?_⟩
  · rw [hids _ hinv1]
    decide
  · exact List.Forall₂.imp (fun _ _ h => ⟨h.2.2, le_of_eq h.2.1⟩) hrel
  · rcases (joinCleanup_user_rel host w cleanupId).2 with h | ⟨E, hE, h⟩
    · rw [h]
    · rw [h]
      have := hpos E hE
      omega

/-! ## Properties of the search and the filter -/

theorem startsWith_iff_initial (text pattern : List Char) :
    startsWith text pattern = true ↔ pattern <+: text := by
  induction text generalizing pattern with
  | nil =>
    cases pattern with
    | nil => simp [startsWith]
    | cons p ps => simp [startsWith]
  | cons t ts ih =>
    cases pattern with
    | nil => simp [startsWith]
    | cons p ps =>
      simp only [startsWith, Bool.and_eq_true, beq_iff_eq, ih, List.cons_prefix_cons]
      constructor
      · rintro ⟨h1, h2⟩
        exact ⟨h1.symm, h2⟩
      · rintro ⟨h1, h2⟩
        exact ⟨h1.symm, h2⟩

theorem includesChars_iff_substring (text pattern : List Char) :
    includesChars text pattern = true ↔ pattern <:+: text := by
  induction text with
  | nil =>
    simp only [includesChars, startsWith_iff_initial, List.prefix_nil, List.infix_nil]
  | cons t ts ih =>
    simp only [includesChars, Bool.or_eq_true, startsWith_iff_initial, ih, List.infix_cons_iff]

/-- The builtin `includes` is the substring test. -/
theorem includes_iff_substring (s searchString : String) :
    includes s searchString = true ↔ searchString.data <:+: s.data :=
  includesChars_iff_substring s.data searchString.data

theorem includes_empty (s : String) : includes s "" = true :=
  (includes_iff_substring s "").mpr List.nil_infix

theorem matchesDate_all (host : Host) (dateFilter : String) (cleanup : Cleanup)
    (h1 : dateFilter ≠ "today") (h2 : dateFilter ≠ "week") (h3 : dateFilter ≠ "month") :
    matchesDate host dateFilter cleanup = true := by
  simp [matchesDate, h1, h2, h3]

/-- C2: with an empty search string and a date filter that is none of
`today`, `week`, `month`, the list `filterCleanups` hands to `renderCleanups`
is `appState.cleanups` itself, and the page it leaves is the rendering of that
list.  The empty string is its own lower-cased form. -/
theorem filterCleanups_all (host : Host) (w : World) (hlower : host.toLowerCase "" = "")
    (hs : w.document.searchInput = "")
    (h1 : w.document.dateFilter ≠ "today") (h2 : w.document.dateFilter ≠ "week")
    (h3 : w.document.dateFilter ≠ "month") :
    filtered host w = w.appState.cleanups ∧
    filterCleanups host w =
      { w with document := renderCleanups host w.document w.appState.cleanups } := by
  have hf : filtered host w = w.appState.cleanups := by
    unfold filtered
    apply List.filter_eq_self.mpr
    intro c _
    simp [matchesSearch, hs, hlower, includes_empty, matchesDate_all host _ c h1 h2 h3]
  exact ⟨hf, by unfold filterCleanups; rw [hf]⟩

/-- Witness of C2: the initial page with the selector on `all`. -/
theorem filterCleanups_all_witness :
    filtered (utcHost 0) (userInput (initialWorld (utcHost 0)) "" "all") = mockCleanups ∧
    filterCleanups (utcHost 0) (userInput (initialWorld (utcHost 0)) "" "all") =
      { userInput (initialWorld (utcHost 0)) "" "all" with
        document := renderCleanups (utcHost 0)
          (userInput (initialWorld (utcHost 0)) "" "all").document mockCleanups } :=
  filterCleanups_all (utcHost 0) (userInput (initialWorld (utcHost 0)) "" "all") (by rfl) (by rfl)
    (by decide) (by decide) (by decide)

/-- C3: for every event list, every date filter and every search term whose
lower-cased form is a substring of no event's lower-cased title, location or
crew, the filtered list is empty, and `renderCleanups` on the empty list
leaves the list container with the placeholder markup and no card. -/
theorem filterCleanups_no_match (host : Host) (w : World)
    (hno : ∀ c ∈ w.appState.cleanups,
      ¬ (host.toLowerCase w.document.searchInput).data <:+: (host.toLowerCase c.title).data ∧
      ¬ (host.toLowerCase w.document.searchInput).data <:+: (host.toLowerCase c.location).data ∧
      ¬ (host.toLowerCase w.document.searchInput).data <:+: (host.toLowerCase c.crew).data) :
    filtered host w = [] ∧
    (filterCleanups host w).document.cleanupsList =
      { innerHTML := "<p class=\"placeholder\">No cleanups found.</p>", appended := [] } ∧
    ∀ doc : Document, (renderCleanups host doc []).cleanupsList =
      { innerHTML := "<p class=\"placeholder\">No cleanups found.</p>", appended := [] } := by
  have hf : filtered host w = [] := by
    unfold filtered
    apply List.filter_eq_nil_iff.mpr
    intro c hc
    obtain ⟨ht, hl, hcr⟩ := hno c hc
    have e1 := mt (includes_iff_substring _ _).mp ht
    have e2 := mt (includes_iff_substring _ _).mp hl
    have e3 := mt (includes_iff_substring _ _).mp hcr
    simp [matchesSearch, e1, e2, e3]
  refine ⟨hf, ?_, fun doc => rfl⟩
  unfold filterCleanups
  rw [hf]
  rfl

/-- Witness of C3: the term `zzz` on the initial page with the selector on
`week`. -/
theorem filterCleanups_no_match_witness :
    filtered (utcHost 0) (userInput (initialWorld (utcHost 0)) "zzz" "week") = [] ∧
    (filterCleanups (utcHost 0)
      (userInput (initialWorld (utcHost 0)) "zzz" "week")).document.cleanupsList =
      { innerHTML := "<p class=\"placeholder\">No cleanups found.</p>", appended := [] } ∧
    ∀ doc : Document, (renderCleanups (utcHost 0) doc []).cleanupsList =
      { innerHTML := "<p class=\"placeholder\">No cleanups found.</p>", appended := [] } :=
  filterCleanups_no_match (utcHost 0) (userInput (initialWorld (utcHost 0)) "zzz" "week") (by
    have hall : ∀ c ∈ mockCleanups,
        includes ((utcHost 0).toLowerCase c.title) ((utcHost 0).toLowerCase "zzz") = false ∧
        includes ((utcHost 0).toLowerCase c.location) ((utcHost 0).toLowerCase "zzz") = false ∧
        includes ((utcHost 0).toLowerCase c.crew) ((utcHost 0).toLowerCase "zzz") = false := by
      decide
    intro c hc
    obtain ⟨a1, a2, a3⟩ := hall c hc
    refine ⟨?_, ?_, ?_⟩
    · intro h
      have t : includes ((utcHost 0).toLowerCase c.title) ((utcHost 0).toLowerCase "zzz") = true :=
        (includes_iff_substring _ _).mpr h
      rw [a1] at t
      exact Bool.noConfusion t
    · intro h
      have t : includes ((utcHost 0).toLowerCase c.location) ((utcHost 0).toLowerCase "zzz") = true :=
        (includes_iff_substring _ _).mpr h
      rw [a2] at t
      exact Bool.noConfusion t
    · intro h
      have t : includes ((utcHost 0).toLowerCase c.crew) ((utcHost 0).toLowerCase "zzz") = true :=
        (includes_iff_substring _ _).mpr h
      rw [a3] at t
      exact Bool.noConfusion t)

theorem includes_eq_decide (s searchString : String) :
    includes s searchString = decide (searchString.data <:+: s.data) := by
  rw [Bool.eq_iff_iff]
  simp [includes_iff_substring]

/-- C4: with the date filter on "all dates", `filterCleanups` keeps, in their
original order, exactly the events for which the lower-cased search term is a
substring of the lower-cased title, location or crew; hence two search terms
with the same lower-cased form give the same list. -/
theorem filterCleanups_search (host : Host) (w : World)
    (h1 : w.document.dateFilter ≠ "today") (h2 : w.document.dateFilter ≠ "week")
    (h3 : w.document.dateFilter ≠ "month") :
    filtered host w = w.appState.cleanups.filter (fun c => decide (
      (host.toLowerCase w.document.searchInput).data <:+: (host.toLowerCase c.title).data ∨
      (host.toLowerCase w.document.searchInput).data <:+: (host.toLowerCase c.location).data ∨
      (host.toLowerCase w.document.searchInput).data <:+: (host.toLowerCase c.crew).data)) ∧
    ∀ s2 : String, host.toLowerCase s2 = host.toLowerCase w.document.searchInput →
      filtered host (userInput w s2 w.document.dateFilter) = filtered host w := by
  constructor
  · unfold filtered
    apply List.filter_congr
    intro c _
    simp [matchesSearch, matchesDate_all host _ c h1 h2 h3, includes_eq_decide, Bool.or_assoc]
  · intro s2 hs2
    unfold filtered userInput
    simp only [hs2]

/-- Witness of C4: `MALIBU`, `malibu` and `Malibu` on the initial page. -/
theorem filterCleanups_search_witness :
    filtered (utcHost 0) (userInput (initialWorld (utcHost 0)) "malibu" "all") =
      filtered (utcHost 0) (userInput (initialWorld (utcHost 0)) "MALIBU" "all") ∧
    filtered (utcHost 0) (userInput (initialWorld (utcHost 0)) "Malibu" "all") =
      filtered (utcHost 0) (userInput (initialWorld (utcHost 0)) "MALIBU" "all") ∧
    ((filtered (utcHost 0) (userInput (initialWorld (utcHost 0)) "MALIBU" "all")).map
      fun c => c.id) = [2] :=
  ⟨(filterCleanups_search (utcHost 0) (userInput (initialWorld (utcHost 0)) "MALIBU" "all")
      (by decide) (by decide) (by decide)).2 "malibu" (by decide),
   (filterCleanups_search (utcHost 0) (userInput (initialWorld (utcHost 0)) "MALIBU" "all")
      (by decide) (by decide) (by decide)).2 "Malibu" (by decide),
   by decide⟩

/-- C5 at a failing input: today is 10 March 2026 (UTC), the search box is
empty and the selector is on `month`; the three events of March 2025 are all
kept, although their year is 2025 and the current year is 2026. -/
theorem month_filter_keeps_other_year :
    filtered (utcHost 1773144000000)
      (userInput (initialWorld (utcHost 1773144000000)) "" "month") = mockCleanups ∧
    (mockCleanups.map fun c =>
      getFullYear (utcHost 1773144000000) (newDate (utcHost 1773144000000) c.date)) =
      [some 2025, some 2025, some 2025] ∧
    (mockCleanups.map fun c =>
      getMonth (utcHost 1773144000000) (newDate (utcHost 1773144000000) c.date)) =
      [some 2, some 2, some 2] ∧
    getFullYear (utcHost 1773144000000) (some (utcHost 1773144000000).now) = some 2026 ∧
    getMonth (utcHost 1773144000000) (some (utcHost 1773144000000).now) = some 2 := by
  decide

/-! ## Properties of the weather panel -/

set_option maxRecDepth 100000 in
theorem weatherHTML_id1 (location : String) :
    weatherHTML location { temp := 22, condition := "☀️ Sunny", humidity := 65, windSpeed := 8 } =
      "\n        <div class=\"weather-card\">\n            <h3>" ++ location ++
      ("</h3>\n            <div class=\"weather-emoji\">☀️</div>\n" ++
      "            <div class=\"weather-temp\">22°C</div>\n            <p>☀️ Sunny</p>\n" ++
      "            <small>💧 65% | 🌬️ 8 km/h</small>\n        </div>\n    ") := by
  simp only [weatherHTML, String.append_assoc]
  rfl

set_option maxRecDepth 100000 in
theorem weatherHTML_id2 (location : String) :
    weatherHTML location { temp := 20, condition := "🌤️ Partly Cloudy", humidity := 70, windSpeed := 12 } =
      "\n        <div class=\"weather-card\">\n            <h3>" ++ location ++
      ("</h3>\n            <div class=\"weather-emoji\">🌤️</div>\n" ++
      "            <div class=\"weather-temp\">20°C</div>\n            <p>🌤️ Partly Cloudy</p>\n" ++
      "            <small>💧 70% | 🌬️ 12 km/h</small>\n        </div>\n    ") := by
  simp only [weatherHTML, String.append_assoc]
  rfl

set_option maxRecDepth 100000 in
theorem weatherHTML_id3 (location : String) :
    weatherHTML location { temp := 21, condition := "☀️ Sunny", humidity := 68, windSpeed := 7 } =
      "\n        <div class=\"weather-card\">\n            <h3>" ++ location ++
      ("</h3>\n            <div class=\"weather-emoji\">☀️</div>\n" ++
      "            <div class=\"weather-temp\">21°C</div>\n            <p>☀️ Sunny</p>\n" ++
      "            <small>💧 68% | 🌬️ 7 km/h</small>\n        </div>\n    ") := by
  simp only [weatherHTML, String.append_assoc]
  rfl

set_option maxRecDepth 100000 in
theorem weatherHTML_fallback (location : String) :
    weatherHTML location { temp := 20, condition := "☀️ Sunny", humidity := 65, windSpeed := 8 } =
      "\n        <div class=\"weather-card\">\n            <h3>" ++ location ++
      ("</h3>\n            <div class=\"weather-emoji\">☀️</div>\n" ++
      "            <div class=\"weather-temp\">20°C</div>\n            <p>☀️ Sunny</p>\n" ++
      "            <small>💧 65% | 🌬️ 8 km/h</small>\n        </div>\n    ") := by
  simp only [weatherHTML, String.append_assoc]
  rfl

/-- The value of `weather` in `updateWeather`, by cases on the id. -/
theorem weatherOf_table (c : Cleanup) : weatherOf c =
      if c.id = 1 then { temp := 22, condition := "☀️ Sunny", humidity := 65, windSpeed := 8 }
      else if c.id = 2 then
        { temp := 20, condition := "🌤️ Partly Cloudy", humidity := 70, windSpeed := 12 }
      else if c.id = 3 then
        { temp := 21, condition := "☀️ Sunny", humidity := 68, windSpeed := 7 }
      else { temp := 20, condition := "☀️ Sunny", humidity := 65, windSpeed := 8 } := by
  unfold weatherOf weatherData
  by_cases e1 : c.id = 1
  · simp [e1]
  · by_cases e2 : c.id = 2
    · simp [e2]
    · by_cases e3 : c.id = 3
      · simp [e3]
      · simp [e1, e2, e3]

/-- C8: the weather figures `updateWeather` renders are a function of the
event's id alone: id 1 gives (22, Sunny, 65, 8), id 2 gives (20, Partly
Cloudy, 70, 12), id 3 gives (21, Sunny, 68, 7), any other id gives the
fallback (20, Sunny, 65, 8).  The panel is the weather card with the event's
location as heading and these figures as its text, written out below for each
of the four cases, and `updateWeather` changes nothing else on the page.  A
click on the marker of an event with id 2 selects that event and fills the
panel with the id-2 card. -/
theorem updateWeather_by_id :
    (∀ c : Cleanup, weatherOf c =
      if c.id = 1 then { temp := 22, condition := "☀️ Sunny", humidity := 65, windSpeed := 8 }
      else if c.id = 2 then
        { temp := 20, condition := "🌤️ Partly Cloudy", humidity := 70, windSpeed := 12 }
      else if c.id = 3 then
        { temp := 21, condition := "☀️ Sunny", humidity := 68, windSpeed := 7 }
      else { temp := 20, condition := "☀️ Sunny", humidity := 65, windSpeed := 8 }) ∧
    (∀ c1 c2 : Cleanup, c1.id = c2.id → weatherOf c1 = weatherOf c2) ∧
    (∀ (doc : Document) (c : Cleanup),
      (updateWeather doc c).weatherContainer = weatherHTML c.location (weatherOf c)) ∧
    (∀ (w : World) (i : Nat) (c : Cleanup), w.appState.cleanups[i]? = some c → c.id = 2 →
      (markerClick w i).appState.selectedCleanup = some i ∧
      (markerClick w i).document.weatherContainer = weatherHTML c.location
        { temp := 20, condition := "🌤️ Partly Cloudy", humidity := 70, windSpeed := 12 }) ∧
    (∀ (doc : Document) (c : Cleanup), c.id = 1 →
      updateWeather doc c = { doc with weatherContainer :=
      "\n        <div class=\"weather-card\">\n            <h3>" ++ c.location ++
      ("</h3>\n            <div class=\"weather-emoji\">☀️</div>\n" ++
      "            <div class=\"weather-temp\">22°C</div>\n            <p>☀️ Sunny</p>\n" ++
      "            <small>💧 65% | 🌬️ 8 km/h</small>\n        </div>\n    ") }) ∧
    (∀ (doc : Document) (c : Cleanup), c.id = 2 →
      updateWeather doc c = { doc with weatherContainer :=
      "\n        <div class=\"weather-card\">\n            <h3>" ++ c.location ++
      ("</h3>\n            <div class=\"weather-emoji\">🌤️</div>\n" ++
      "            <div class=\"weather-temp\">20°C</div>\n            <p>🌤️ Partly Cloudy</p>\n" ++
      "            <small>💧 70% | 🌬️ 12 km/h</small>\n        </div>\n    ") }) ∧
    (∀ (doc : Document) (c : Cleanup), c.id = 3 →
      updateWeather doc c = { doc with weatherContainer :=
      "\n        <div class=\"weather-card\">\n            <h3>" ++ c.location ++
      ("</h3>\n            <div class=\"weather-emoji\">☀️</div>\n" ++
      "            <div class=\"weather-temp\">21°C</div>\n            <p>☀️ Sunny</p>\n" ++
      "            <small>💧 68% | 🌬️ 7 km/h</small>\n        </div>\n    ") }) ∧
    (∀ (doc : Document) (c : Cleanup), c.id ≠ 1 → c.id ≠ 2 → c.id ≠ 3 →
      updateWeather doc c = { doc with weatherContainer :=
      "\n        <div class=\"weather-card\">\n            <h3>" ++ c.location ++
      ("</h3>\n            <div class=\"weather-emoji\">☀️</div>\n" ++
      "            <div class=\"weather-temp\">20°C</div>\n            <p>☀️ Sunny</p>\n" ++
      "            <small>💧 65% | 🌬️ 8 km/h</small>\n        </div>\n    ") }) ∧
    (∀ (w : World) (i : Nat) (c : Cleanup), w.appState.cleanups[i]? = some c → c.id = 2 →
      (markerClick w i).document.weatherContainer =
      "\n        <div class=\"weather-card\">\n            <h3>" ++ c.location ++
      ("</h3>\n            <div class=\"weather-emoji\">🌤️</div>\n" ++
      "            <div class=\"weather-temp\">20°C</div>\n            <p>🌤️ Partly Cloudy</p>\n" ++
      "            <small>💧 70% | 🌬️ 12 km/h</small>\n        </div>\n    ")) := by
  refine ⟨weatherOf_table, ?_, fun _ _ => rfl, ?_, ?_, ?_, ?_, ?_, ?_⟩
  · intro c1 c2 h
    unfold weatherOf
    rw [h]
  · intro w i c hc hid
    unfold markerClick
    rw [hc]
    refine ⟨rfl, ?_⟩
    show weatherHTML c.location (weatherOf c) = _
    rw [weatherOf_table c, hid]
    rfl
  · intro doc c hid
    unfold updateWeather
    rw [weatherOf_table c, if_pos hid, weatherHTML_id1]
  · intro doc c hid
    have h1 : c.id ≠ 1 := by omega
    unfold updateWeather
    rw [weatherOf_table c, if_neg h1, if_pos hid, weatherHTML_id2]
  · intro doc c hid
    have h1 : c.id ≠ 1 := by omega
    have h2 : c.id ≠ 2 := by omega
    unfold updateWeather
    rw [weatherOf_table c, if_neg h1, if_neg h2, if_pos hid, weatherHTML_id3]
  · intro doc c h1 h2 h3
    unfold updateWeather
    rw [weatherOf_table c, if_neg h1, if_neg h2, if_neg h3, weatherHTML_fallback]
  · intro w i c hc hid
    have h1 : c.id ≠ 1 := by omega
    unfold markerClick
    rw [hc]
    show weatherHTML c.location (weatherOf c) = _
    rw [weatherOf_table c, if_neg h1, if_pos hid, weatherHTML_id2]

set_option maxRecDepth 100000 in
/-- The Malibu scenario of C8 on the initial page: a click on the marker of
the second event selects it and fills the panel with the card of Malibu. -/
theorem updateWeather_by_id_witness :
    (initialWorld (utcHost 0)).appState.cleanups[1]?.map (fun c => c.id) = some 2 ∧
    (markerClick (initialWorld (utcHost 0)) 1).appState.selectedCleanup = some 1 ∧
    (markerClick (initialWorld (utcHost 0)) 1).document.weatherContainer =
      "\n        <div class=\"weather-card\">\n            <h3>Malibu, CA</h3>\n" ++
      "            <div class=\"weather-emoji\">🌤️</div>\n" ++
      "            <div class=\"weather-temp\">20°C</div>\n            <p>🌤️ Partly Cloudy</p>\n" ++
      "            <small>💧 70% | 🌬️ 12 km/h</small>\n        </div>\n    " :=
  ⟨by rfl,
   (updateWeather_by_id.2.2.2.1 (initialWorld (utcHost 0)) 1
    { id := 2
      title := "Malibu Coast Conservation"
      location := "Malibu, CA"
      date := "2025-03-22"
      time := "10:00"
      description := "Help protect our beautiful coastline. Bring friends!"
      crew := "Beach Guardians"
      members := 8
      impact := 32
      icon := "🏖️" } (by rfl) (by rfl)).1,
   updateWeather_by_id.2.2.2.2.2.2.2.2 (initialWorld (utcHost 0)) 1
    { id := 2
      title := "Malibu Coast Conservation"
      location := "Malibu, CA"
      date := "2025-03-22"
      time := "10:00"
      description := "Help protect our beautiful coastline. Bring friends!"
      crew := "Beach Guardians"
      members := 8
      impact := 32
      icon := "🏖️" } (by rfl) (by rfl)⟩

end ShoreSquad
